import Mathlib

set_option maxHeartbeats 1000000
set_option linter.unusedVariables false

/-!
Shallow embedding of the siem-ai-assistant alert-enrichment pipeline.

The embedding translates the Python sources under src/ into executable Lean
definitions: dictionaries become an inductive value type, fallible operations
return Except, and the external systems (Elasticsearch store, OpenAI chat
endpoint, Kibana note endpoint) are modelled as explicit oracles passed in as
parameters, so that the orchestration logic of src/main.py, the pagination
logic of src/connectors/elasticsearch.py, the prompt construction of
src/connectors/ai.py and the credential validation of both connectors can be
stated and proved about.
-/

/-- Python-style semi-structured values, as they appear in the alert records
and Elasticsearch responses handled by the pipeline. -/
inductive PyVal where
  | none
  | str (s : String)
  | int (n : Int)
  | list (xs : List PyVal)
  | dict (kvs : List (String × PyVal))

/-- The Python exceptions that the embedded code paths can raise, plus an
`external` constructor for failures injected by the modelled external systems
(network errors from the store, the analysis service, or the annotation
endpoint). -/
inductive PyErr where
  | keyError (k : String)
  | attributeError (m : String)
  | typeError (m : String)
  | valueError (m : String)
  | external (m : String)
deriving DecidableEq

/-- Key lookup inside a dict value; `Option.none` when the value is not a dict
or the key is absent. -/
def keyOpt : PyVal → String → Option PyVal
  | .dict kvs, k => kvs.lookup k
  | _, _ => Option.none

/-- Models the Python expression `v.get(k, d)`: on a dict it returns the value
at `k` or the default `d`; on any other value Python raises
`AttributeError: ... object has no attribute get`. -/
def pyGet (v : PyVal) (k : String) (d : PyVal) : Except PyErr PyVal :=
  match v with
  | .dict kvs => .ok ((kvs.lookup k).getD d)
  | _ => .error (.attributeError "get")

/-- Models the Python subscript expression `v[k]`: `KeyError` on a missing
key, `TypeError` when the value is not a dict. -/
def pyIndex (v : PyVal) (k : String) : Except PyErr PyVal :=
  match v with
  | .dict kvs =>
      match kvs.lookup k with
      | Option.some w => .ok w
      | Option.none => .error (.keyError k)
  | _ => .error (.typeError "not subscriptable")

def isDict : PyVal → Bool
  | .dict _ => true
  | _ => false

/-- The value stored at key `k`, if present, is itself a dict (vacuously true
when the key is absent or the receiver is not a dict). -/
def okDict (v : PyVal) (k : String) : Bool :=
  match keyOpt v k with
  | Option.none => true
  | Option.some w => isDict w

/-- Models Python str() as used by f-string interpolation. The claims only
depend on its value at leaves (strings, None, integers); container rendering
is abbreviated because no theorem inspects it. -/
def pyStr : PyVal → String
  | .none => "None"
  | .str s => s
  | .int n => toString n
  | .list _ => "<list>"
  | .dict _ => "<dict>"

/-- Models Python str(e) for the exceptions of the model; for injected
external failures the message is the injected one. -/
def pyErrStr : PyErr → String
  | .keyError k => "KeyError: " ++ k
  | .attributeError m => "AttributeError: " ++ m
  | .typeError m => "TypeError: " ++ m
  | .valueError m => "ValueError: " ++ m
  | .external m => m

/-- Models yaml.dump(v, default_flow_style=False). Only the rendering of the
empty list (the default for a missing threat field), which is the two
characters of an empty flow sequence followed by a newline, is relied upon by
any theorem. -/
def yamlDump : PyVal → String
  | .list [] => "[]\n"
  | _ => "<yaml>\n"

/-- The flat bag of values extracted by AISecurityAnalyst._create_signal_prompt
(src/connectors/ai.py) before rendering, in the order the f-string
interpolates them. -/
structure PromptFields where
  ruleName : PyVal
  severity : PyVal
  riskScore : PyVal
  description : PyVal
  timestamp : PyVal
  procName : PyVal
  procCommandLine : PyVal
  procWorkingDirectory : PyVal
  parentName : PyVal
  parentCommandLine : PyVal
  userName : PyVal
  userDomain : PyVal
  hostHostname : PyVal
  hostOsName : PyVal
  threat : PyVal

/-- The field-extraction part of AISecurityAnalyst._create_signal_prompt,
mirroring the chain of `.get` calls of the source line by line (including the
repeated re-extraction of `source` from the signal that the source performs
for the kibana, host and user subtrees, and the re-extraction of `rule` inside
the f-string). -/
def create_signal_prompt_fields (signal : PyVal) : Except PyErr PromptFields := do
  let source1 ← pyGet signal "source" (.dict [])
  let process ← pyGet source1 "process" (.dict [])
  let parent_process ← pyGet process "parent" (.dict [])
  let source2 ← pyGet signal "source" (.dict [])
  let kibana ← pyGet source2 "kibana" (.dict [])
  let kibana_alert ← pyGet kibana "alert" (.dict [])
  let rule0 ← pyGet kibana_alert "rule" (.dict [])
  let rule_params ← pyGet rule0 "parameters" (.dict [])
  let source3 ← pyGet signal "source" (.dict [])
  let host ← pyGet source3 "host" (.dict [])
  let source4 ← pyGet signal "source" (.dict [])
  let user ← pyGet source4 "user" (.dict [])
  let rule1 ← pyGet kibana_alert "rule" (.dict [])
  let ruleName ← pyGet rule1 "name" (.str "N/A")
  let severity ← pyGet rule_params "severity" (.str "N/A")
  let riskScore ← pyGet rule_params "risk_score" (.str "N/A")
  let description ← pyGet rule_params "description" (.str "N/A")
  let source5 ← pyGet signal "source" (.dict [])
  let timestamp ← pyGet source5 "@timestamp" (.str "N/A")
  let procName ← pyGet process "name" (.str "N/A")
  let procCommandLine ← pyGet process "command_line" (.str "N/A")
  let procWorkingDirectory ← pyGet process "working_directory" (.str "N/A")
  let parentName ← pyGet parent_process "name" (.str "N/A")
  let parentCommandLine ← pyGet parent_process "command_line" (.str "N/A")
  let userName ← pyGet user "name" (.str "N/A")
  let userDomain ← pyGet user "domain" (.str "N/A")
  let hostHostname ← pyGet host "hostname" (.str "N/A")
  let os ← pyGet host "os" (.dict [])
  let hostOsName ← pyGet os "name" (.str "N/A")
  let threat ← pyGet rule_params "threat" (.list [])
  pure ⟨ruleName, severity, riskScore, description, timestamp, procName,
        procCommandLine, procWorkingDirectory, parentName, parentCommandLine,
        userName, userDomain, hostHostname, hostOsName, threat⟩

/-- The f-string rendering of the triage prompt of
AISecurityAnalyst._create_signal_prompt, with the extracted values
interpolated via Python str() at the positions of the source. -/
def renderSignalPrompt (f : PromptFields) : String :=
  "Analyze the following security alert and provide a triage assessment:\n\n" ++
  "        Alert Details:\n" ++
  "        - Rule Name: " ++ pyStr f.ruleName ++ "\n" ++
  "        - Severity: " ++ pyStr f.severity ++ "\n" ++
  "        - Risk Score: " ++ pyStr f.riskScore ++ "\n" ++
  "        - Description: " ++ pyStr f.description ++ "\n" ++
  "        - Timestamp: " ++ pyStr f.timestamp ++ "\n\n" ++
  "        Process Information:\n" ++
  "        - Name: " ++ pyStr f.procName ++ "\n" ++
  "        - Command Line: " ++ pyStr f.procCommandLine ++ "\n" ++
  "        - Working Directory: " ++ pyStr f.procWorkingDirectory ++ "\n" ++
  "        - Parent Process: " ++ pyStr f.parentName ++ "\n" ++
  "        - Parent Command Line: " ++ pyStr f.parentCommandLine ++ "\n\n" ++
  "        User Context:\n" ++
  "        - Username: " ++ pyStr f.userName ++ "\n" ++
  "        - Domain: " ++ pyStr f.userDomain ++ "\n\n" ++
  "        Host Information:\n" ++
  "        - Hostname: " ++ pyStr f.hostHostname ++ "\n" ++
  "        - OS: " ++ pyStr f.hostOsName ++ "\n\n" ++
  "        MITRE ATT&CK:\n" ++
  "        " ++ yamlDump f.threat ++ "\n" ++
  "        Please provide:\n" ++
  "        1. Severity Assessment (Critical/High/Medium/Low) with short explanation\n" ++
  "        2. Short description of the rule and its purpose\n" ++
  "        3. Short summary of host and user context in a table\n" ++
  "        4. Detailed analysis of the alert with highlighting key fields\n" ++
  "        5. Recommended immediate actions\n\n" ++
  "        Use markdown formatting for the response.\n        "

/-- AISecurityAnalyst._create_signal_prompt: extract, then render. -/
def create_signal_prompt (signal : PyVal) : Except PyErr String :=
  (create_signal_prompt_fields signal).map renderSignalPrompt

/-- The fields produced for a record with a completely empty source mapping:
every extracted value defaults to the "N/A" sentinel, and the MITRE threat
list defaults to the empty list. -/
def naFields : PromptFields :=
  ⟨.str "N/A", .str "N/A", .str "N/A", .str "N/A", .str "N/A", .str "N/A",
   .str "N/A", .str "N/A", .str "N/A", .str "N/A", .str "N/A", .str "N/A",
   .str "N/A", .str "N/A", .list []⟩

/-- A record is well-shaped for prompt extraction when every value actually
present at one of the intermediate extraction paths is itself a mapping (a
missing key is always fine: the source defaults it). These are exactly the
values on which the source calls `.get`. -/
def wellShaped (signal : PyVal) : Bool :=
  isDict signal &&
  okDict signal "source" &&
  (let source := (keyOpt signal "source").getD (.dict [])
   okDict source "process" && okDict source "kibana" &&
   okDict source "host" && okDict source "user" &&
   (let process := (keyOpt source "process").getD (.dict [])
    okDict process "parent") &&
   (let kibana := (keyOpt source "kibana").getD (.dict [])
    okDict kibana "alert" &&
    (let alert := (keyOpt kibana "alert").getD (.dict [])
     okDict alert "rule" &&
     (let rule := (keyOpt alert "rule").getD (.dict [])
      okDict rule "parameters"))) &&
   (let host := (keyOpt source "host").getD (.dict [])
    okDict host "os"))

/-- The configuration of the AISecurityAnalyst (src/connectors/ai.py): a model
identifier, a sampling temperature (the Python float 0.3 is modelled as the
rational 3/10) and the hardcoded debug log path. -/
structure AISecurityAnalyst where
  model : String
  temperature : Rat
  log_file : String

/-- The default value of the `temperature` keyword parameter of
AISecurityAnalyst.__init__. -/
def defaultTemperature : Rat := 3 / 10

/-- The default value of the `model` keyword parameter of
AISecurityAnalyst.__init__. -/
def defaultModel : String := "gpt-4o"

/-- AISecurityAnalyst.__init__. Optional keyword arguments of the Python
signature are modelled as Option values: a caller that omits the argument
passes Option.none and the Python default applies. Construction is total:
no argument combination is rejected. -/
def AISecurityAnalyst.init (openai_api_key : String) (model : Option String)
    (temperature : Option Rat) : AISecurityAnalyst :=
  { model := model.getD defaultModel,
    temperature := temperature.getD defaultTemperature,
    log_file := "logs.txt" }

/-- One entry of the `messages` array sent to the chat-completions endpoint. -/
structure ChatMessage where
  role : String
  content : String
deriving DecidableEq

/-- The payload of one chat-completions invocation: model identifier, the
messages array and the sampling temperature, exactly the keyword arguments
passed by AISecurityAnalyst.analyze_signal. -/
structure ChatRequest where
  model : String
  messages : List ChatMessage
  temperature : Rat

/-- The fixed system-role instruction of AISecurityAnalyst.analyze_signal. -/
def systemInstruction : String :=
  "You are an expert security analyst. Analyze the security alert and provide concise, actionable insights."

/-- The request built by AISecurityAnalyst.analyze_signal for a rendered
per-alert prompt: the fixed system message followed by the prompt as the
user message, with the configured model and temperature. -/
def analysisRequest (self : AISecurityAnalyst) (prompt : String) : ChatRequest :=
  { model := self.model,
    messages := [⟨"system", systemInstruction⟩, ⟨"user", prompt⟩],
    temperature := self.temperature }

/-- The dictionary returned by AISecurityAnalyst.analyze_signal. -/
structure Analysis where
  signal_id : PyVal
  analysis : String
  model_used : String
  timestamp : PyVal

/-- AISecurityAnalyst.analyze_signal. The external chat-completions call is an
oracle `llm` from the full request to either a narrative text or a raised
error. The `_log_debug` file appends are pure side effects with no influence
on control flow or data and are not modelled. After the service call the
source builds its result dictionary, evaluating signal["id"] (subscript: may
raise KeyError) and then signal["source"].get("@timestamp") (subscript then
defaulted get). -/
def analyze_signal (self : AISecurityAnalyst)
    (llm : ChatRequest → Except PyErr String) (signal : PyVal) :
    Except PyErr Analysis := do
  let prompt ← create_signal_prompt signal
  let content ← llm (analysisRequest self prompt)
  let sid ← pyIndex signal "id"
  let src ← pyIndex signal "source"
  let ts ← pyGet src "@timestamp" PyVal.none
  pure ⟨sid, content, self.model, ts⟩

/-- Python truthiness of an optional string argument: None and the empty
string are falsy. -/
def truthyStr : Option String → Bool
  | Option.none => false
  | Option.some s => !s.isEmpty

/-- The authentication configuration selected by
ElasticsearchConnector.__init__ for the Elasticsearch client. -/
inductive EsAuth where
  | api_key (k : String)
  | basic_auth (u : String) (p : String)
deriving DecidableEq

/-- ElasticsearchConnector.__init__ (src/connectors/elasticsearch.py):
`if api_key: ... elif username and password: ... else: raise ValueError`.
On success the Elasticsearch client is constructed with the chosen scheme; on
the error branch the ValueError is raised before any client exists, so no
network call can have been made. -/
def ElasticsearchConnector.init (host : String) (api_key : Option String)
    (username : Option String) (password : Option String)
    (verify_ssl : Bool) : Except PyErr EsAuth :=
  if truthyStr api_key then
    .ok (.api_key (api_key.getD ""))
  else if truthyStr username && truthyStr password then
    .ok (.basic_auth (username.getD "") (password.getD ""))
  else
    .error (.valueError "Either API key or username/password must be provided")

/-- Models Python str.rstrip applied with the slash character. -/
def rstripSlash (s : String) : String :=
  String.mk ((s.data.reverse.dropWhile fun c => c == '/').reverse)

/-- The state assembled by KibanaConnector.__init__. -/
structure KibanaConn where
  base_url : String
  space : String
  headers : List (String × String)
  auth : Option (String × String)
  api_endpoint : String
deriving DecidableEq

/-- KibanaConnector.__init__ (src/connectors/kibana.py): the same
`if api_key: ... elif username and password: ... else: raise ValueError`
credential selection, preceded by base-url normalisation and followed by the
space-aware endpoint computation. -/
def KibanaConnector.init (host : String) (space : String)
    (api_key : Option String) (username : Option String)
    (password : Option String) (verify_ssl : Bool) :
    Except PyErr KibanaConn :=
  let base_url := rstripSlash host
  let headers0 := [("kbn-xsrf", "true")]
  let api_endpoint :=
    if space != "default" then base_url ++ "/s/" ++ space ++ "/api"
    else base_url ++ "/api"
  if truthyStr api_key then
    .ok ⟨base_url, space,
         headers0 ++ [("Authorization", "ApiKey " ++ api_key.getD "")],
         Option.none, api_endpoint⟩
  else if truthyStr username && truthyStr password then
    .ok ⟨base_url, space, headers0,
         Option.some (username.getD "", password.getD ""), api_endpoint⟩
  else
    .error (.valueError "Either API key or username/password must be provided")

/-- Discriminator for Except used to state success conditions. -/
def exOk {α : Type} : Except PyErr α → Bool
  | .ok _ => true
  | .error _ => false

/-- One hit of an Elasticsearch search or scroll response. -/
structure Hit where
  hitId : String
  hitSource : PyVal

/-- The per-hit record built by ElasticsearchConnector.get_signals:
the Python dict literal with keys id and source. -/
def hitToSignal (h : Hit) : PyVal :=
  .dict [("id", .str h.hitId), ("source", h.hitSource)]

/-- The modelled document store behind the Elasticsearch client: the full
ordered list of hits matching the query, the page size it serves per
search/scroll response, and an optional injected failure making the n-th
scroll continuation call (1-based) raise. -/
structure ScrollStore where
  docs : List Hit
  pageSize : Nat
  failAt : Option Nat

/-- The error raised by an injected scroll-continuation failure. -/
def scrollFailure : PyErr := .external "ConnectionError: scroll continuation failed"

/-- Observable trace of one get_signals execution: the lengths of the
responses received (the initial search response first, then one entry per
successful scroll response), the number of scroll continuation calls issued,
the number of clear_scroll calls issued, and the returned value or the
propagated error. -/
structure FetchTrace where
  respLens : List Nat
  scrollCalls : Nat
  clearCalls : Nat
  result : Except PyErr (List PyVal)

/-- The `while len(resp['hits']['hits']):` loop of
ElasticsearchConnector.get_signals. `prev` is the hits list of the previous
response, `rem` the store content not yet served, `calls` the number of scroll
calls already issued, `acc` the results accumulated so far. Each iteration
issues one scroll call (which raises if it is the injected failing one),
extends the accumulator with the id/source projection of the new hits, and
continues while the response is nonempty. Returns the scroll-response
lengths, the total scroll-call count, and the accumulated results or the
propagated error. -/
def scrollWhile (P : Nat) (failAt : Option Nat) (prev rem : List Hit)
    (calls : Nat) (acc : List PyVal) :
    List Nat × Nat × Except PyErr (List PyVal) :=
  if prev.isEmpty then
    ([], calls, .ok acc)
  else if failAt = Option.some (calls + 1) then
    ([], calls + 1, .error scrollFailure)
  else
    let resp := rem.take P
    let r := scrollWhile P failAt resp (rem.drop P) (calls + 1)
      (acc ++ resp.map hitToSignal)
    (resp.length :: r.1, r.2.1, r.2.2)
termination_by rem.length + (if prev.isEmpty then 0 else 1)
decreasing_by
  simp only [List.length_drop]
  rcases rem with _ | ⟨x, xs⟩
  · simp_all
  · rcases Nat.eq_zero_or_pos P with hP | hP
    · subst hP
      simp_all [List.take]
    · have hlt : (x :: xs).length - P < (x :: xs).length := by
        simp only [List.length_cons]
        omega
      split <;> simp_all

/-- ElasticsearchConnector.get_signals over the modelled store: the initial
search returns the first page, the accumulated results are seeded from it,
the scroll loop runs, and — only on the non-exceptional exit of the loop —
clear_scroll is invoked once before the results are returned. An error raised
inside the loop propagates out of the method with no clear_scroll call, since
the source protects the loop with no try/finally. -/
def get_signals (store : ScrollStore) : FetchTrace :=
  let resp := store.docs.take store.pageSize
  let results := resp.map hitToSignal
  let r := scrollWhile store.pageSize store.failAt resp
    (store.docs.drop store.pageSize) 0 results
  match r.2.2 with
  | .ok rs => ⟨resp.length :: r.1, r.2.1, 1, .ok rs⟩
  | .error e => ⟨resp.length :: r.1, r.2.1, 0, .error e⟩

/-- Ceiling division, used to state the pagination call-count property. -/
def ceilDiv (t p : Nat) : Nat := (t + p - 1) / p

/-- Every response in the trace except the final one is nonempty, and the
final one is empty: the loop keeps continuing exactly while responses are
nonempty and stops at the first empty page. -/
def continuesUntilEmptyPage : List Nat → Bool
  | [] => true
  | [l] => l == 0
  | l :: l2 :: rest => (l != 0) && continuesUntilEmptyPage (l2 :: rest)

/-- The stopping rule asserted by the claim: no continuation call is ever
issued after a response carrying fewer records than the requested page size,
i.e. every response except the final one has at least P records. -/
def stopsAtShortPage (P : Nat) : List Nat → Bool
  | [] => true
  | [_] => true
  | l :: l2 :: rest => (P ≤ l) && stopsAtShortPage P (l2 :: rest)

/-- The arguments of one KibanaConnector.add_note call observed by the
annotation sink: the event id keyword argument and the note text. -/
structure SinkCall where
  event_id : PyVal
  note : String

/-- The note text assembled by main() from the analysis dictionary and the
signal, following the f-string of src/main.py with its interpolations in
source order: analysis text, signal id, analysis timestamp, model used. -/
def renderNote (analysisText : String) (sid : PyVal) (ts : PyVal)
    (modelUsed : String) : String :=
  "\n            AI Security Analysis            \n\n            " ++
  analysisText ++
  "\n\n            Signal ID: " ++ pyStr sid ++
  "\n            Analysis Timestamp: " ++ pyStr ts ++
  "\n            Model Used: " ++ modelUsed ++
  "\n            "

/-- Outcome of the per-signal body of the main() loop. -/
inductive StepResult where
  | ok (idv : PyVal) (call : SinkCall)
  | recorded (idv : PyVal) (msg : String)
  | aborted (e : PyErr)

/-- One iteration of the `for signal in signals:` loop of main(). The try
block runs analyze_signal, renders the note (re-reading signal["id"] inside
the f-string), calls kibana.add_note with signal["id"] as event id, and prints
the success marker (reading signal["id"] once more). Any error raised in the
try block reaches the except handler, whose own f-string evaluates
signal["id"]: if that subscript raises too, the new exception propagates out
of the loop and the run aborts. -/
def processSignal (a : AISecurityAnalyst) (llm : ChatRequest → Except PyErr String)
    (sink : PyVal → String → Except PyErr PyVal) (signal : PyVal) : StepResult :=
  let body : Except PyErr (PyVal × SinkCall) := do
    let analysis ← analyze_signal a llm signal
    let sid ← pyIndex signal "id"
    let note := renderNote analysis.analysis sid analysis.timestamp analysis.model_used
    let sid2 ← pyIndex signal "id"
    let _ ← sink sid2 note
    let sid3 ← pyIndex signal "id"
    pure (sid3, ⟨sid2, note⟩)
  match body with
  | .ok (idv, call) => .ok idv call
  | .error e =>
      match pyIndex signal "id" with
      | .ok idv => .recorded idv (pyErrStr e)
      | .error e2 => .aborted e2

/-- The print statements main() can emit, one constructor per print call of
the source: the rules count line, the signals count line, the per-signal
success marker, and the per-signal failure line carrying the id and str(e). -/
inductive OutEvent where
  | foundRules (n : Nat)
  | foundSignals (n : Nat)
  | okSig (i : String)
  | errSig (i : String) (msg : String)
deriving DecidableEq

/-- State threaded through the run: printed output in order, the add_note
calls observed by the annotation sink in order, and the uncaught exception
if the run aborted. -/
structure RunState where
  output : List OutEvent
  sinkCalls : List SinkCall
  aborted : Option PyErr

/-- The `for signal in signals:` loop of main(): each record is processed in
sequence order; a caught error appends a failure line and processing
continues with the next record; an uncaught error (one raised by the except
handler itself) terminates the loop at once, leaving the rest of the
sequence unprocessed. -/
def runLoop (a : AISecurityAnalyst) (llm : ChatRequest → Except PyErr String)
    (sink : PyVal → String → Except PyErr PyVal) :
    List PyVal → RunState → RunState
  | [], st => st
  | s :: rest, st =>
    match processSignal a llm sink s with
    | .ok idv call =>
        runLoop a llm sink rest
          ⟨st.output ++ [.okSig (pyStr idv)], st.sinkCalls ++ [call], st.aborted⟩
    | .recorded idv msg =>
        runLoop a llm sink rest
          ⟨st.output ++ [.errSig (pyStr idv) msg], st.sinkCalls, st.aborted⟩
    | .aborted e => ⟨st.output, st.sinkCalls, Option.some e⟩

/-- The outcome event the loop appends for one record (helper for stating the
run-level theorems; it mirrors the match of runLoop). -/
def signalEvent (a : AISecurityAnalyst) (llm : ChatRequest → Except PyErr String)
    (sink : PyVal → String → Except PyErr PyVal) (s : PyVal) : OutEvent :=
  match processSignal a llm sink s with
  | .ok idv _ => .okSig (pyStr idv)
  | .recorded idv msg => .errSig (pyStr idv) msg
  | .aborted _ => .errSig "" ""

/-- main() of src/main.py: print the rules count, fetch the signals (a fetch
error propagates and aborts the run with only the rules line printed), print
the signals count, then run the per-signal loop. The rule listing itself is
an external read modelled by its result list. -/
def mainRun (rules : List PyVal) (store : ScrollStore) (a : AISecurityAnalyst)
    (llm : ChatRequest → Except PyErr String)
    (sink : PyVal → String → Except PyErr PyVal) : RunState :=
  let st0 : RunState := ⟨[.foundRules rules.length], [], Option.none⟩
  match (get_signals store).result with
  | .error e => ⟨st0.output, st0.sinkCalls, Option.some e⟩
  | .ok signals =>
      runLoop a llm sink signals
        ⟨st0.output ++ [.foundSignals signals.length], st0.sinkCalls, st0.aborted⟩

/-- Number of per-signal success markers in the printed output: the count of
successfully annotated alerts is derivable from the transcript only by
counting these markers. -/
def annotatedOkCount (out : List OutEvent) : Nat :=
  (out.filter fun e => match e with | .okSig _ => true | _ => false).length

/-- The numeral carried by an output line, for the lines that print one: the
rules count line and the signals count line. Success markers and failure
lines carry ids and messages, not counts. -/
def reportedNat : OutEvent → Option Nat
  | .foundRules n => Option.some n
  | .foundSignals n => Option.some n
  | .okSig _ => Option.none
  | .errSig _ _ => Option.none

/-- Reduction of Except bind at an ok value (the Monad instance of Except). -/
lemma exBind_ok {α β : Type} (a : α) (f : α → Except PyErr β) :
    (Except.ok a : Except PyErr α) >>= f = f a := rfl

/-- Reduction of Except bind at an error value. -/
lemma exBind_error {α β : Type} (e : PyErr) (f : α → Except PyErr β) :
    (Except.error e : Except PyErr α) >>= f = .error e := rfl

/-- Reduction of Except.map at an ok value. -/
lemma exMap_ok {α β : Type} (a : α) (f : α → β) :
    (Except.ok a : Except PyErr α).map f = .ok (f a) := rfl

/-- Reduction of Except.map at an error value. -/
lemma exMap_error {α β : Type} (e : PyErr) (f : α → β) :
    (Except.error e : Except PyErr α).map f = .error e := rfl

/-- A hit used by the concrete witnesses: id a1, empty source. -/
def h0demo : Hit := ⟨"a1", .dict []⟩

/-- A hit used by the concrete witnesses: id a2, empty source. -/
def h1demo : Hit := ⟨"a2", .dict []⟩

/-- A hit used by the concrete witnesses: id a3, empty source. -/
def h2demo : Hit := ⟨"a3", .dict []⟩

/-- An analyst configuration as constructed by src/main.py: explicit model,
temperature omitted. -/
def a0 : AISecurityAnalyst := AISecurityAnalyst.init "test-key" (Option.some "gpt-4o") Option.none

/-- A chat-completions oracle that always answers with a fixed narrative. -/
def llm0 : ChatRequest → Except PyErr String := fun _ => .ok "low risk"

/-- An annotation sink that always succeeds. -/
def sink0 : PyVal → String → Except PyErr PyVal := fun _ _ => .ok PyVal.none

/-- C5 (amended). Constructing either connector succeeds exactly when at least
one complete authentication scheme is supplied (a truthy API key, or a truthy
username together with a truthy password); with neither scheme, construction
fails with the ValueError raised by the credential check, before any client
object exists and hence before any network call. Supplying both schemes at
once is not an error: the API-key branch of the if/elif wins. -/
theorem c5_construction_requires_credentials (host space : String)
    (api_key username password : Option String) (ssl : Bool) :
    exOk (ElasticsearchConnector.init host api_key username password ssl)
      = (truthyStr api_key || (truthyStr username && truthyStr password))
  ∧ exOk (KibanaConnector.init host space api_key username password ssl)
      = (truthyStr api_key || (truthyStr username && truthyStr password)) := by
  constructor <;>
  · simp only [ElasticsearchConnector.init, KibanaConnector.init]
    by_cases h1 : truthyStr api_key = true <;>
      by_cases h2 : truthyStr username = true <;>
        by_cases h3 : truthyStr password = true <;>
          simp_all [exOk]

/-- C5 counterexample. Supplying both an API key and a username/password pair
at once does not fail construction: the Elasticsearch connector succeeds and
selects the API-key scheme, and the Kibana connector succeeds as well —
refuting the claim that supplying both schemes is a construction-time
validation error. -/
theorem c5_both_schemes_accepted_counterexample :
    ElasticsearchConnector.init "https://es.example.com" (Option.some "KEY")
      (Option.some "user") (Option.some "pass") true = .ok (EsAuth.api_key "KEY")
  ∧ exOk (KibanaConnector.init "https://kb.example.com" "default" (Option.some "KEY")
      (Option.some "user") (Option.some "pass") true) = true := by
  exact ⟨rfl, rfl⟩

/-- C7 (confirmed). Prompt construction is deterministic: it is a pure
function of the alert record, so two calls on the same record produce
byte-identical rendered analysis requests. -/
theorem c7_prompt_deterministic (s t : PyVal) (h : s = t) :
    create_signal_prompt s = create_signal_prompt t := by
  rw [h]

/-- Witness for c7_prompt_deterministic at a concrete record. -/
theorem c7_prompt_deterministic_witness :
    (PyVal.dict [("source", PyVal.dict [])]) = (PyVal.dict [("source", PyVal.dict [])])
  ∧ create_signal_prompt (PyVal.dict [("source", PyVal.dict [])])
      = create_signal_prompt (PyVal.dict [("source", PyVal.dict [])]) :=
  ⟨rfl, c7_prompt_deterministic _ _ rfl⟩

/-- C8 (amended). Every analysis-service invocation sends exactly two
messages — the fixed system-role instruction followed by the rendered
per-alert prompt as the user-role message — together with the configured
model identifier and sampling temperature; the temperature, however, is an
optional constructor parameter with the hidden default 0.3, not a required
one: constructing the analyst without supplying it succeeds and yields the
default (src/main.py constructs the analyst exactly this way). -/
theorem c8_request_shape_and_default_temperature (a : AISecurityAnalyst)
    (prompt : String) (key : String) (model : Option String) :
    (analysisRequest a prompt).messages
        = [⟨"system", systemInstruction⟩, ⟨"user", prompt⟩]
  ∧ (analysisRequest a prompt).messages.length = 2
  ∧ (analysisRequest a prompt).model = a.model
  ∧ (analysisRequest a prompt).temperature = a.temperature
  ∧ (AISecurityAnalyst.init key model Option.none).temperature = defaultTemperature :=
  ⟨rfl, rfl, rfl, rfl, rfl⟩

/-- C8 counterexample. The temperature is not a required constructor
parameter: construction with the temperature omitted succeeds and silently
applies the hidden default 0.3 (and likewise the model defaults to gpt-4o),
refuting the no-hidden-default part of the claim. -/
theorem c8_hidden_default_counterexample :
    (AISecurityAnalyst.init "sk-test" Option.none Option.none).temperature = 3 / 10
  ∧ (AISecurityAnalyst.init "sk-test" Option.none Option.none).model = "gpt-4o" :=
  ⟨rfl, rfl⟩

/-- C4 counterexample. A record whose source mapping is present but carries a
wrong-shaped (non-mapping) value at an extracted path does raise: with
source.process a string, the parent-process lookup calls .get on a str and
Python raises AttributeError, so prompt construction is not total on
wrong-shaped values. -/
theorem c4_wrong_shape_counterexample :
    create_signal_prompt
      (PyVal.dict [("source", PyVal.dict [("process", PyVal.str "powershell.exe")])])
      = .error (PyErr.attributeError "get") := by
  rfl

/-- On a dict, .get returns the stored value or the default. -/
lemma pyGet_eq_of_isDict (v : PyVal) (k : String) (d : PyVal)
    (hv : isDict v = true) :
    pyGet v k d = .ok ((keyOpt v k).getD d) := by
  cases v <;> simp_all [isDict, pyGet, keyOpt]

/-- The defaulted value at a key of a well-shaped node is again a dict. -/
lemma isDict_getD_of_okDict (v : PyVal) (k : String)
    (h : okDict v k = true) :
    isDict ((keyOpt v k).getD (.dict [])) = true := by
  unfold okDict at h
  cases hk : keyOpt v k <;> simp_all [isDict]

/-- C4 (amended). Prompt construction never raises on any record whose values
present at the intermediate extraction paths are mappings — in particular it
is total on records with missing keys anywhere — and on a record whose raw
source mapping is completely empty every extracted field is the "N/A"
sentinel and the MITRE threat list is the empty list. (Totality does not
extend to wrong-shaped, non-mapping values at intermediate paths, which raise
AttributeError; see the counterexample above.) -/
theorem c4_defensive_extraction (s : PyVal) (h : wellShaped s = true) :
    exOk (create_signal_prompt s) = true
  ∧ create_signal_prompt_fields (PyVal.dict [("source", PyVal.dict [])])
      = .ok naFields := by
  refine ⟨?_, by rfl⟩
  unfold wellShaped at h
  simp only [Bool.and_eq_true] at h
  obtain ⟨⟨hsig, hsrcOk⟩, hrest⟩ := h
  obtain ⟨⟨⟨⟨⟨⟨hproc, hkib⟩, hhost⟩, huser⟩, hpar⟩, hkchain⟩, hosOk⟩ := hrest
  obtain ⟨halert, hrule, hparams⟩ := hkchain
  have hsrc := isDict_getD_of_okDict s "source" hsrcOk
  set src := (keyOpt s "source").getD (.dict []) with hsrcdef
  have hprocD := isDict_getD_of_okDict src "process" hproc
  set proc := (keyOpt src "process").getD (.dict []) with hprocdef
  have hparD := isDict_getD_of_okDict proc "parent" hpar
  have hkibD := isDict_getD_of_okDict src "kibana" hkib
  set kib := (keyOpt src "kibana").getD (.dict []) with hkibdef
  have halertD := isDict_getD_of_okDict kib "alert" halert
  set alrt := (keyOpt kib "alert").getD (.dict []) with halertdef
  have hruleD := isDict_getD_of_okDict alrt "rule" hrule
  set rl := (keyOpt alrt "rule").getD (.dict []) with hruledef
  have hparamsD := isDict_getD_of_okDict rl "parameters" hparams
  have hhostD := isDict_getD_of_okDict src "host" hhost
  set hst := (keyOpt src "host").getD (.dict []) with hhostdef
  have hosD := isDict_getD_of_okDict hst "os" hosOk
  have huserD := isDict_getD_of_okDict src "user" huser
  simp only [create_signal_prompt, create_signal_prompt_fields,
    pyGet_eq_of_isDict _ _ _ hsig, exBind_ok,
    pyGet_eq_of_isDict _ _ _ hsrc,
    pyGet_eq_of_isDict _ _ _ hprocD,
    pyGet_eq_of_isDict _ _ _ hparD,
    pyGet_eq_of_isDict _ _ _ hkibD,
    pyGet_eq_of_isDict _ _ _ halertD,
    pyGet_eq_of_isDict _ _ _ hruleD,
    pyGet_eq_of_isDict _ _ _ hparamsD,
    pyGet_eq_of_isDict _ _ _ hhostD,
    pyGet_eq_of_isDict _ _ _ hosD,
    pyGet_eq_of_isDict _ _ _ huserD,
    exMap_ok, pure, Except.pure, exOk]

/-- Witness for c4_defensive_extraction: the empty record is well-shaped and
its prompt construction succeeds. -/
theorem c4_defensive_extraction_witness :
    wellShaped (PyVal.dict [("source", PyVal.dict [])]) = true
  ∧ (exOk (create_signal_prompt (PyVal.dict [("source", PyVal.dict [])])) = true
     ∧ create_signal_prompt_fields (PyVal.dict [("source", PyVal.dict [])])
         = .ok naFields) :=
  ⟨rfl, c4_defensive_extraction _ rfl⟩

/-- Ceiling-division recurrence used for the continuation-call count. -/
lemma ceilDiv_pos_step (P m : Nat) (hP : 0 < P) (hm : 0 < m) :
    ceilDiv m P = 1 + ceilDiv (m - P) P := by
  unfold ceilDiv
  rcases Nat.le_total m P with hle | hge
  · have h1 : m - P = 0 := by omega
    rw [h1]
    have h2 : m + P - 1 = (m - 1) + P := by omega
    rw [h2, Nat.add_div_right _ hP]
    have h3 : (m - 1) / P = 0 := Nat.div_eq_of_lt (by omega)
    have h4 : (0 + P - 1) / P = 0 := Nat.div_eq_of_lt (by omega)
    omega
  · have h2 : m + P - 1 = (m - P + P - 1) + P := by omega
    rw [h2, Nat.add_div_right _ hP]
    omega

/-- Characterisation of the scroll loop in the absence of injected failures,
entered with a nonempty previous response: it issues exactly
1 + ceil(rem/P) further scroll calls, returns the accumulator extended with
every remaining hit in store order, and its response trace is nonempty,
consists of nonempty responses and ends with the single empty response that
terminates the loop. -/
lemma scrollWhile_no_fail (P : Nat) (hP : 0 < P) :
    ∀ (n : Nat) (rem : List Hit), rem.length ≤ n →
    ∀ (prev : List Hit), prev.isEmpty = false → ∀ (calls : Nat) (acc : List PyVal),
    ∃ lens, scrollWhile P Option.none prev rem calls acc
        = (lens, calls + 1 + ceilDiv rem.length P, .ok (acc ++ rem.map hitToSignal))
      ∧ lens ≠ [] ∧ continuesUntilEmptyPage lens = true := by
  intro n
  induction n with
  | zero =>
      intro rem hrem prev hprev calls acc
      have h0 : rem = [] := by
        cases rem
        · rfl
        · simp at hrem
      subst h0
      refine ⟨[0], ?_, by simp, by rfl⟩
      rw [scrollWhile]
      simp [hprev, scrollWhile, ceilDiv, Nat.div_eq_of_lt (by omega : P - 1 < P)]
  | succ n ih =>
      intro rem hrem prev hprev calls acc
      rcases rem with _ | ⟨x, xs⟩
      · refine ⟨[0], ?_, by simp, by rfl⟩
        rw [scrollWhile]
        simp [hprev, scrollWhile, ceilDiv, Nat.div_eq_of_lt (by omega : P - 1 < P)]
      · have hresp : ((x :: xs).take P).isEmpty = false := by
          cases P
          · omega
          · simp [List.take]
        have hlen : ((x :: xs).drop P).length ≤ n := by
          simp only [List.length_drop, List.length_cons]
          simp only [List.length_cons] at hrem
          omega
        obtain ⟨lens', heq, hne, hcont⟩ :=
          ih ((x :: xs).drop P) hlen ((x :: xs).take P) hresp (calls + 1)
            (acc ++ ((x :: xs).take P).map hitToSignal)
        refine ⟨((x :: xs).take P).length :: lens', ?_, by simp, ?_⟩
        · rw [scrollWhile]
          simp only [hprev, Bool.false_eq_true, if_false, reduceCtorEq, if_neg,
            Option.some.injEq]
          rw [heq]
          have harith : calls + 1 + 1 + ceilDiv ((x :: xs).drop P).length P
              = calls + 1 + ceilDiv (x :: xs).length P := by
            rw [List.length_drop,
              ceilDiv_pos_step P (x :: xs).length hP (by simp)]
            omega
          have hlist : (acc ++ ((x :: xs).take P).map hitToSignal)
                ++ ((x :: xs).drop P).map hitToSignal
              = acc ++ (x :: xs).map hitToSignal := by
            rw [List.append_assoc, ← List.map_append, List.take_append_drop]
          simp only [List.length_drop, List.length_cons] at harith
          simp [harith, hlist]
        · have hlenpos : ((x :: xs).take P).length ≠ 0 := by
            cases P
            · omega
            · simp [List.take]
          cases lens' with
          | nil => exact absurd rfl hne
          | cons a as =>
              simp only [continuesUntilEmptyPage, Bool.and_eq_true, bne_iff_ne]
              exact ⟨hlenpos, hcont⟩

/-- The loop entered with an empty previous response returns at once. -/
lemma scrollWhile_empty_prev (P : Nat) (failAt : Option Nat) (rem : List Hit)
    (calls : Nat) (acc : List PyVal) :
    scrollWhile P failAt [] rem calls acc = ([], calls, .ok acc) := by
  rw [scrollWhile]
  simp

/-- The loop entered with a nonempty previous response and an exhausted store
(no injected failure) issues exactly one final scroll call, which returns the
empty page, and terminates. -/
lemma scrollWhile_last (P : Nat) (prev : List Hit) (hprev : prev.isEmpty = false)
    (calls : Nat) (acc : List PyVal) :
    scrollWhile P Option.none prev [] calls acc = ([0], calls + 1, .ok acc) := by
  rw [scrollWhile]
  simp [hprev, scrollWhile_empty_prev]

/-- C3 (amended). For a store of T matching records served in pages of size
P > 0, get_signals returns exactly the T records in store order (hence no
duplicates and no gaps), issues exactly ceil(T/P) scroll continuation calls,
and stops paginating when — and only when — a page with zero records is
returned: every response before the final one is nonempty and the final one
is empty. (A nonempty page with fewer records than requested does not stop
pagination; see the counterexample below.) -/
theorem c3_pagination_complete (docs : List Hit) (P : Nat) (hP : 0 < P) :
    (get_signals ⟨docs, P, Option.none⟩).result = .ok (docs.map hitToSignal)
  ∧ (get_signals ⟨docs, P, Option.none⟩).scrollCalls = ceilDiv docs.length P
  ∧ continuesUntilEmptyPage (get_signals ⟨docs, P, Option.none⟩).respLens = true := by
  rcases docs with _ | ⟨x, xs⟩
  · have hs : scrollWhile P Option.none [] [] 0 [] = ([], 0, Except.ok []) :=
      scrollWhile_empty_prev P Option.none [] 0 []
    refine ⟨?_, ?_, ?_⟩ <;>
      simp [get_signals, hs, ceilDiv, Nat.div_eq_of_lt (by omega : P - 1 < P),
        continuesUntilEmptyPage]
  · have hprev : ((x :: xs).take P).isEmpty = false := by
      cases P
      · omega
      · simp [List.take]
    obtain ⟨lens, heq, hne, hcont⟩ :=
      scrollWhile_no_fail P hP ((x :: xs).drop P).length ((x :: xs).drop P) le_rfl
        ((x :: xs).take P) hprev 0 (((x :: xs).take P).map hitToSignal)
    have harith : 0 + 1 + ceilDiv ((x :: xs).drop P).length P
        = ceilDiv (x :: xs).length P := by
      rw [List.length_drop, ceilDiv_pos_step P (x :: xs).length hP (by simp)]
    have hlist : ((x :: xs).take P).map hitToSignal ++ ((x :: xs).drop P).map hitToSignal
        = (x :: xs).map hitToSignal := by
      rw [← List.map_append, List.take_append_drop]
    have hget : get_signals ⟨x :: xs, P, Option.none⟩ =
        ⟨((x :: xs).take P).length :: lens,
          0 + 1 + ceilDiv ((x :: xs).drop P).length P, 1,
          .ok (((x :: xs).take P).map hitToSignal ++ ((x :: xs).drop P).map hitToSignal)⟩ := by
      simp only [get_signals]
      rw [heq]
    have hlenpos : ((x :: xs).take P).length ≠ 0 := by
      cases P
      · omega
      · simp [List.take]
    refine ⟨?_, ?_, ?_⟩
    · rw [hget]
      simp [hlist]
    · rw [hget]
      exact harith
    · rw [hget]
      cases lens with
      | nil => exact absurd rfl hne
      | cons a as =>
          simp only [continuesUntilEmptyPage, Bool.and_eq_true, bne_iff_ne]
          exact ⟨hlenpos, hcont⟩

/-- Witness for c3_pagination_complete: a store of three records served in
pages of two records. -/
theorem c3_pagination_complete_witness :
    0 < 2
  ∧ ((get_signals ⟨[h0demo, h1demo, h2demo], 2, Option.none⟩).result
        = .ok ([h0demo, h1demo, h2demo].map hitToSignal)
     ∧ (get_signals ⟨[h0demo, h1demo, h2demo], 2, Option.none⟩).scrollCalls
        = ceilDiv [h0demo, h1demo, h2demo].length 2
     ∧ continuesUntilEmptyPage
        (get_signals ⟨[h0demo, h1demo, h2demo], 2, Option.none⟩).respLens = true) :=
  ⟨by decide, c3_pagination_complete [h0demo, h1demo, h2demo] 2 (by decide)⟩

/-- C3 counterexample. With one stored record and page size two, the first
response already carries fewer records than requested (one of two), yet the
loop issues one further scroll continuation call (which returns the empty
page): the response-length trace is [1, 0], violating the claimed rule that
pagination stops as soon as a page with fewer records than requested is
returned. -/
theorem c3_stops_at_empty_not_short_counterexample :
    (get_signals ⟨[h0demo], 2, Option.none⟩).respLens = [1, 0]
  ∧ (get_signals ⟨[h0demo], 2, Option.none⟩).scrollCalls = 1
  ∧ stopsAtShortPage 2 (get_signals ⟨[h0demo], 2, Option.none⟩).respLens = false := by
  have hs : scrollWhile 2 Option.none [h0demo] [] 0 [hitToSignal h0demo]
      = ([0], 1, .ok [hitToSignal h0demo]) :=
    scrollWhile_last 2 [h0demo] (by rfl) 0 [hitToSignal h0demo]
  refine ⟨?_, ?_, ?_⟩ <;> simp [get_signals, hs, stopsAtShortPage]

/-- C2 (code bug shown on the code). When the injected failure makes the
first scroll continuation call raise mid-pagination, get_signals propagates
the error and the scroll context is never released: zero clear_scroll calls
are observed, while on the success path over the same store the context is
released exactly once. The source has no try/finally around the scroll loop,
so the release in the error case required by the claim does not happen. -/
theorem c2_scroll_release_skipped_on_error :
    (get_signals ⟨[h0demo, h1demo], 1, Option.some 1⟩).clearCalls = 0
  ∧ (get_signals ⟨[h0demo, h1demo], 1, Option.some 1⟩).result = .error scrollFailure
  ∧ (get_signals ⟨[h0demo, h1demo], 1, Option.none⟩).clearCalls = 1 := by
  have hfail : scrollWhile 1 (Option.some 1) [h0demo] [h1demo] 0 [hitToSignal h0demo]
      = ([], 1, .error scrollFailure) := by
    rw [scrollWhile]
    simp
  have hok2 : scrollWhile 1 Option.none [h1demo] [] 1
      [hitToSignal h0demo, hitToSignal h1demo]
      = ([0], 2, .ok [hitToSignal h0demo, hitToSignal h1demo]) :=
    scrollWhile_last 1 [h1demo] (by rfl) 1 _
  have hok : scrollWhile 1 Option.none [h0demo] [h1demo] 0 [hitToSignal h0demo]
      = ([1, 0], 2, .ok [hitToSignal h0demo, hitToSignal h1demo]) := by
    rw [scrollWhile]
    simp only [List.isEmpty_cons, Bool.false_eq_true, if_false, reduceCtorEq,
      if_neg, List.take, List.drop, List.map]
    simp [hok2]
  refine ⟨?_, ?_, ?_⟩ <;> simp [get_signals, hfail, hok]

/-- Any element of a successful scroll-loop result comes either from the
accumulator the loop was entered with or is the id/source projection of some
hit. -/
lemma scrollWhile_ok_mem (P : Nat) (failAt : Option Nat) :
    ∀ (n : Nat) (prev rem : List Hit) (calls : Nat) (acc : List PyVal),
    rem.length + (if prev.isEmpty then 0 else 1) ≤ n →
    ∀ (lens : List Nat) (calls2 : Nat) (rs : List PyVal),
    scrollWhile P failAt prev rem calls acc = (lens, calls2, .ok rs) →
    ∀ s ∈ rs, s ∈ acc ∨ ∃ h : Hit, s = hitToSignal h := by
  intro n
  induction n with
  | zero =>
      intro prev rem calls acc hm lens calls2 rs heq s hs
      have hprev : prev.isEmpty = true := by
        rcases hpe : prev.isEmpty with _ | _
        · rw [hpe] at hm
          simp at hm
        · rfl
      rw [scrollWhile, if_pos hprev] at heq
      have hacc : acc = rs := by
        have h2 := congrArg (fun t => t.2.2) heq
        simpa using h2
      exact Or.inl (hacc ▸ hs)
  | succ n ih =>
      intro prev rem calls acc hm lens calls2 rs heq s hs
      rcases hpe : prev.isEmpty with _ | _
      · rw [scrollWhile, if_neg (by simp [hpe])] at heq
        by_cases hfail : failAt = Option.some (calls + 1)
        · rw [if_pos hfail] at heq
          have h2 := congrArg (fun t => t.2.2) heq
          simp at h2
        · rw [if_neg hfail] at heq
          have hr : (scrollWhile P failAt (rem.take P) (rem.drop P) (calls + 1)
              (acc ++ (rem.take P).map hitToSignal)).2.2 = .ok rs := by
            have h2 := congrArg (fun t => t.2.2) heq
            simpa using h2
          have hrec : scrollWhile P failAt (rem.take P) (rem.drop P) (calls + 1)
              (acc ++ (rem.take P).map hitToSignal)
              = ((scrollWhile P failAt (rem.take P) (rem.drop P) (calls + 1)
                    (acc ++ (rem.take P).map hitToSignal)).1,
                 (scrollWhile P failAt (rem.take P) (rem.drop P) (calls + 1)
                    (acc ++ (rem.take P).map hitToSignal)).2.1, .ok rs) := by
            rw [← hr]
          have hmeas : (rem.drop P).length
              + (if (rem.take P).isEmpty then 0 else 1) ≤ n := by
            rw [List.length_drop]
            rw [hpe] at hm
            simp only [Bool.false_eq_true, if_false] at hm
            rcases hte : (rem.take P).isEmpty with _ | _
            · have hrem0 : rem ≠ [] := by
                intro h0
                rw [h0] at hte
                simp at hte
              have hP0 : 0 < P := by
                rcases Nat.eq_zero_or_pos P with h0 | h0
                · rw [h0] at hte
                  simp at hte
                · exact h0
              have hpos : 0 < rem.length := List.length_pos.mpr hrem0
              simp only [Bool.false_eq_true, if_false]
              omega
            · simp only [if_true]
              omega
          have hres := ih (rem.take P) (rem.drop P) (calls + 1)
            (acc ++ (rem.take P).map hitToSignal) hmeas _ _ _ hrec s hs
          rcases hres with hmem | hh
          · rcases List.mem_append.mp hmem with h1 | h2
            · exact Or.inl h1
            · obtain ⟨hit, _, hh2⟩ := List.mem_map.mp h2
              exact Or.inr ⟨hit, hh2.symm⟩
          · exact Or.inr hh
      · rw [scrollWhile, if_pos hpe] at heq
        have hacc : acc = rs := by
          have h2 := congrArg (fun t => t.2.2) heq
          simpa using h2
        exact Or.inl (hacc ▸ hs)

/-- The id/source projection of a hit always carries the hit id under the
key id. -/
lemma keyOpt_hitToSignal (h : Hit) :
    keyOpt (hitToSignal h) "id" = Option.some (PyVal.str h.hitId) := by
  simp [hitToSignal, keyOpt]

/-- Every record returned by a successful get_signals call is the id/source
projection of some stored hit, hence carries a string id at the key id. -/
lemma get_signals_ok_shape (store : ScrollStore) (signals : List PyVal)
    (h : (get_signals store).result = .ok signals) :
    ∀ s ∈ signals, ∃ i, keyOpt s "id" = Option.some (PyVal.str i) := by
  intro s hs
  simp only [get_signals] at h
  split at h
  · rename_i rs heq
    simp only at h
    injection h with h
    subst h
    have hrec : scrollWhile store.pageSize store.failAt
        (store.docs.take store.pageSize) (store.docs.drop store.pageSize) 0
        ((store.docs.take store.pageSize).map hitToSignal)
        = ((scrollWhile store.pageSize store.failAt
              (store.docs.take store.pageSize) (store.docs.drop store.pageSize) 0
              ((store.docs.take store.pageSize).map hitToSignal)).1,
           (scrollWhile store.pageSize store.failAt
              (store.docs.take store.pageSize) (store.docs.drop store.pageSize) 0
              ((store.docs.take store.pageSize).map hitToSignal)).2.1, .ok rs) := by
      rw [← heq]
    have hmem := scrollWhile_ok_mem store.pageSize store.failAt
      ((store.docs.drop store.pageSize).length + 1)
      (store.docs.take store.pageSize) (store.docs.drop store.pageSize) 0
      ((store.docs.take store.pageSize).map hitToSignal)
      (by cases hb : (store.docs.take store.pageSize).isEmpty <;> simp [hb])
      _ _ _ hrec s hs
    rcases hmem with hmem | ⟨hit, hhit⟩
    · obtain ⟨hit, _, hh⟩ := List.mem_map.mp hmem
      exact ⟨hit.hitId, by rw [← hh]; exact keyOpt_hitToSignal hit⟩
    · exact ⟨hit.hitId, by rw [hhit]; exact keyOpt_hitToSignal hit⟩
  · rename_i e heq
    simp at h

/-- A record carrying a string id is never fatal to the loop: its processing
either succeeds, keyed by that id, or its error is caught and recorded
against that id. -/
lemma processSignal_of_id (a : AISecurityAnalyst)
    (llm : ChatRequest → Except PyErr String)
    (sink : PyVal → String → Except PyErr PyVal) (s : PyVal) (i : String)
    (h : keyOpt s "id" = Option.some (PyVal.str i)) :
    (∃ call, processSignal a llm sink s = .ok (PyVal.str i) call)
  ∨ (∃ m, processSignal a llm sink s = .recorded (PyVal.str i) m) := by
  have hidx : pyIndex s "id" = .ok (PyVal.str i) := by
    cases s <;> simp_all [keyOpt, pyIndex]
  unfold processSignal
  rcases ha : analyze_signal a llm s with e | an
  · right
    refine ⟨pyErrStr e, ?_⟩
    simp [ha, hidx, exBind_error]
  · rcases hsink : sink (PyVal.str i)
        (renderNote an.analysis (PyVal.str i) an.timestamp an.model_used) with e2 | v
    · right
      refine ⟨pyErrStr e2, ?_⟩
      simp [ha, hidx, hsink, exBind_ok, exBind_error]
    · left
      refine ⟨⟨PyVal.str i,
        renderNote an.analysis (PyVal.str i) an.timestamp an.model_used⟩, ?_⟩
      simp [ha, hidx, hsink, exBind_ok, pure, Except.pure]

/-- When every record of the sequence carries a string id, the loop never
aborts and appends exactly one outcome event per record, in sequence order. -/
lemma runLoop_ids (a : AISecurityAnalyst) (llm : ChatRequest → Except PyErr String)
    (sink : PyVal → String → Except PyErr PyVal) :
    ∀ (signals : List PyVal) (st : RunState),
    (∀ s ∈ signals, ∃ i, keyOpt s "id" = Option.some (PyVal.str i)) →
    (runLoop a llm sink signals st).aborted = st.aborted
  ∧ (runLoop a llm sink signals st).output
      = st.output ++ signals.map (signalEvent a llm sink) := by
  intro signals
  induction signals with
  | nil =>
      intro st h
      simp [runLoop]
  | cons s rest ih =>
      intro st h
      obtain ⟨i, hi⟩ := h s (List.mem_cons_self s rest)
      have htail : ∀ t ∈ rest, ∃ j, keyOpt t "id" = Option.some (PyVal.str j) :=
        fun t ht => h t (List.mem_cons_of_mem s ht)
      rcases processSignal_of_id a llm sink s i hi with ⟨call, hps⟩ | ⟨m, hps⟩
      · have hev : signalEvent a llm sink s = .okSig (pyStr (PyVal.str i)) := by
          simp [signalEvent, hps]
        have hstep : runLoop a llm sink (s :: rest) st
            = runLoop a llm sink rest
                ⟨st.output ++ [.okSig (pyStr (PyVal.str i))],
                 st.sinkCalls ++ [call], st.aborted⟩ := by
          simp [runLoop, hps]
        obtain ⟨h1, h2⟩ := ih ⟨st.output ++ [.okSig (pyStr (PyVal.str i))],
          st.sinkCalls ++ [call], st.aborted⟩ htail
        refine ⟨by rw [hstep]; exact h1, ?_⟩
        rw [hstep, h2]
        simp [hev]
      · have hev : signalEvent a llm sink s = .errSig (pyStr (PyVal.str i)) m := by
          simp [signalEvent, hps]
        have hstep : runLoop a llm sink (s :: rest) st
            = runLoop a llm sink rest
                ⟨st.output ++ [.errSig (pyStr (PyVal.str i)) m],
                 st.sinkCalls, st.aborted⟩ := by
          simp [runLoop, hps]
        obtain ⟨h1, h2⟩ := ih ⟨st.output ++ [.errSig (pyStr (PyVal.str i)) m],
          st.sinkCalls, st.aborted⟩ htail
        refine ⟨by rw [hstep]; exact h1, ?_⟩
        rw [hstep, h2]
        simp [hev]

/-- Evaluation of get_signals over a one-hit store with page size one. -/
lemma get_signals_single_demo (h : Hit) :
    get_signals ⟨[h], 1, Option.none⟩ = ⟨[1, 0], 1, 1, .ok [hitToSignal h]⟩ := by
  have hs : scrollWhile 1 Option.none [h] [] 0 [hitToSignal h]
      = ([0], 1, .ok [hitToSignal h]) :=
    scrollWhile_last 1 [h] (by rfl) 0 _
  simp [get_signals, hs]

/-- C1 (confirmed). For every sequence of alert records actually fetched by
get_signals, the orchestration loop never aborts: an error raised at any
stage while processing record i (prompt construction, the analysis call, the
note rendering, or the annotation write) is caught, recorded as a failure
line carrying that record's id, and the loop appends exactly one outcome
event per record in sequence order, advancing to record i+1. Fetched records
always carry a string id, which is why the per-record except handler itself
cannot raise. -/
theorem c1_isolate_and_continue (store : ScrollStore) (a : AISecurityAnalyst)
    (llm : ChatRequest → Except PyErr String)
    (sink : PyVal → String → Except PyErr PyVal) (signals : List PyVal)
    (h : (get_signals store).result = .ok signals) :
    (runLoop a llm sink signals ⟨[], [], Option.none⟩).aborted = Option.none
  ∧ (runLoop a llm sink signals ⟨[], [], Option.none⟩).output
      = signals.map (signalEvent a llm sink)
  ∧ ∀ s ∈ signals, ∃ i, keyOpt s "id" = Option.some (PyVal.str i)
      ∧ ((∃ call, processSignal a llm sink s = .ok (PyVal.str i) call)
         ∨ (∃ m, processSignal a llm sink s = .recorded (PyVal.str i) m)) := by
  have hshape := get_signals_ok_shape store signals h
  obtain ⟨h1, h2⟩ := runLoop_ids a llm sink signals ⟨[], [], Option.none⟩ hshape
  refine ⟨h1, by simpa using h2, ?_⟩
  intro s hs
  obtain ⟨i, hi⟩ := hshape s hs
  exact ⟨i, hi, processSignal_of_id a llm sink s i hi⟩

/-- Witness for c1_isolate_and_continue on a concrete one-record fetch. -/
theorem c1_isolate_and_continue_witness :
    (get_signals ⟨[h0demo], 1, Option.none⟩).result = .ok [hitToSignal h0demo]
  ∧ ((runLoop a0 llm0 sink0 [hitToSignal h0demo] ⟨[], [], Option.none⟩).aborted
        = Option.none
     ∧ (runLoop a0 llm0 sink0 [hitToSignal h0demo] ⟨[], [], Option.none⟩).output
        = [hitToSignal h0demo].map (signalEvent a0 llm0 sink0)
     ∧ ∀ s ∈ [hitToSignal h0demo], ∃ i, keyOpt s "id" = Option.some (PyVal.str i)
        ∧ ((∃ call, processSignal a0 llm0 sink0 s = .ok (PyVal.str i) call)
           ∨ (∃ m, processSignal a0 llm0 sink0 s = .recorded (PyVal.str i) m))) :=
  ⟨by rw [get_signals_single_demo],
   c1_isolate_and_continue ⟨[h0demo], 1, Option.none⟩ a0 llm0 sink0 _
     (by rw [get_signals_single_demo])⟩

/-- C6 (confirmed). Whenever the loop body completes successfully for a
record, the analysis result it produced has signal_id equal to the record's
own id, and the add_note write-back observed by the sink is keyed by that
same id: the pipeline never writes a result under a different alert's
identity. -/
theorem c6_correlation_integrity (a : AISecurityAnalyst)
    (llm : ChatRequest → Except PyErr String)
    (sink : PyVal → String → Except PyErr PyVal) (signal idv : PyVal)
    (call : SinkCall)
    (h : processSignal a llm sink signal = .ok idv call) :
    pyIndex signal "id" = .ok idv
  ∧ call.event_id = idv
  ∧ ∃ analysis, analyze_signal a llm signal = .ok analysis
      ∧ analysis.signal_id = idv := by
  unfold processSignal at h
  rcases ha : analyze_signal a llm signal with e | an
  · rw [ha] at h
    simp only [exBind_error] at h
    split at h <;> simp_all
  · rw [ha] at h
    simp only [exBind_ok] at h
    rcases hid : pyIndex signal "id" with e2 | sid
    · rw [hid] at h
      simp only [exBind_error] at h
      simp at h
    · rw [hid] at h
      simp only [exBind_ok] at h
      rcases hsink : sink sid
          (renderNote an.analysis sid an.timestamp an.model_used) with e3 | v
      · rw [hsink] at h
        simp only [exBind_error] at h
        simp at h
      · rw [hsink] at h
        simp only [exBind_ok, pure, Except.pure] at h
        injection h with h1 h2
        subst h1
        refine ⟨rfl, by rw [← h2], an, rfl, ?_⟩
        unfold analyze_signal at ha
        rcases hp : create_signal_prompt signal with e | p
        · rw [hp] at ha
          simp [exBind_error] at ha
        · rw [hp] at ha
          simp only [exBind_ok] at ha
          rcases hl : llm (analysisRequest a p) with e | content
          · rw [hl] at ha
            simp [exBind_error] at ha
          · rw [hl] at ha
            simp only [exBind_ok] at ha
            rw [hid] at ha
            simp only [exBind_ok] at ha
            rcases hsrc : pyIndex signal "source" with e | src
            · rw [hsrc] at ha
              simp [exBind_error] at ha
            · rw [hsrc] at ha
              simp only [exBind_ok] at ha
              rcases hts : pyGet src "@timestamp" PyVal.none with e | ts
              · rw [hts] at ha
                simp [exBind_error] at ha
              · rw [hts] at ha
                simp only [exBind_ok, pure, Except.pure] at ha
                injection ha with ha2
                rw [← ha2]

/-- The note text of the concrete C6 witness run. -/
def c6note : String := renderNote "low risk" (PyVal.str "a1") PyVal.none "gpt-4o"

/-- Witness for c6_correlation_integrity on a concrete fetched record. -/
theorem c6_correlation_integrity_witness :
    processSignal a0 llm0 sink0 (hitToSignal h0demo)
      = .ok (PyVal.str "a1") ⟨PyVal.str "a1", c6note⟩
  ∧ (pyIndex (hitToSignal h0demo) "id" = .ok (PyVal.str "a1")
     ∧ (⟨PyVal.str "a1", c6note⟩ : SinkCall).event_id = PyVal.str "a1"
     ∧ ∃ analysis, analyze_signal a0 llm0 (hitToSignal h0demo) = .ok analysis
         ∧ analysis.signal_id = PyVal.str "a1") :=
  ⟨by rfl, c6_correlation_integrity a0 llm0 sink0 (hitToSignal h0demo)
    (PyVal.str "a1") ⟨PyVal.str "a1", c6note⟩ (by rfl)⟩

/-- C9 (amended). On every run whose fetch succeeds, the printed transcript
is exactly: the rules-count line, the discovered-alerts-count line, then one
per-alert line per fetched record in order — a success marker for an
annotated alert, or a failure line pairing the alert id with the error
description. The run never aborts on per-alert failures. The count of
successfully annotated alerts is derivable only by counting the success
markers; no aggregate annotated count is printed (see the counterexample
below), and the discovered count is printed before processing rather than at
the end. -/
theorem c9_run_summary_reporting (rules : List PyVal) (store : ScrollStore)
    (a : AISecurityAnalyst) (llm : ChatRequest → Except PyErr String)
    (sink : PyVal → String → Except PyErr PyVal) (signals : List PyVal)
    (h : (get_signals store).result = .ok signals) :
    (mainRun rules store a llm sink).output
      = OutEvent.foundRules rules.length :: OutEvent.foundSignals signals.length
          :: signals.map (signalEvent a llm sink)
  ∧ (mainRun rules store a llm sink).aborted = Option.none
  ∧ annotatedOkCount (mainRun rules store a llm sink).output
      = annotatedOkCount (signals.map (signalEvent a llm sink)) := by
  have hshape := get_signals_ok_shape store signals h
  obtain ⟨h1, h2⟩ := runLoop_ids a llm sink signals
    ⟨[OutEvent.foundRules rules.length, OutEvent.foundSignals signals.length],
     [], Option.none⟩ hshape
  have hmain : mainRun rules store a llm sink
      = runLoop a llm sink signals
          ⟨[OutEvent.foundRules rules.length, OutEvent.foundSignals signals.length],
           [], Option.none⟩ := by
    simp only [mainRun]
    rw [h]
    rfl
  refine ⟨?_, ?_, ?_⟩
  · rw [hmain, h2]
    simp
  · rw [hmain, h1]
  · rw [hmain, h2]
    simp [annotatedOkCount]

/-- Witness for c9_run_summary_reporting on a concrete one-record run. -/
theorem c9_run_summary_reporting_witness :
    (get_signals ⟨[h1demo], 1, Option.none⟩).result = .ok [hitToSignal h1demo]
  ∧ ((mainRun [] ⟨[h1demo], 1, Option.none⟩ a0 llm0 sink0).output
        = OutEvent.foundRules ([] : List PyVal).length
            :: OutEvent.foundSignals [hitToSignal h1demo].length
            :: [hitToSignal h1demo].map (signalEvent a0 llm0 sink0)
     ∧ (mainRun [] ⟨[h1demo], 1, Option.none⟩ a0 llm0 sink0).aborted = Option.none
     ∧ annotatedOkCount (mainRun [] ⟨[h1demo], 1, Option.none⟩ a0 llm0 sink0).output
        = annotatedOkCount ([hitToSignal h1demo].map (signalEvent a0 llm0 sink0))) :=
  ⟨by rw [get_signals_single_demo],
   c9_run_summary_reporting [] ⟨[h1demo], 1, Option.none⟩ a0 llm0 sink0 _
     (by rw [get_signals_single_demo])⟩

/-- C10 (confirmed). The per-alert except handler itself reads signal["id"]:
for a record that is a mapping without the key id, the try block necessarily
raises (analyze_signal subscripts signal["id"]), the handler's own f-string
subscript then raises KeyError "id", and this new exception is uncaught — the
run aborts on the spot with the remaining records unprocessed, so the
isolate-and-continue guarantee does not hold for such records. -/
theorem c10_missing_id_aborts_run (a : AISecurityAnalyst)
    (llm : ChatRequest → Except PyErr String)
    (sink : PyVal → String → Except PyErr PyVal)
    (kvs : List (String × PyVal)) (h : kvs.lookup "id" = Option.none)
    (rest : List PyVal) (st : RunState) :
    runLoop a llm sink (PyVal.dict kvs :: rest) st
      = ⟨st.output, st.sinkCalls, Option.some (PyErr.keyError "id")⟩ := by
  have hidx : pyIndex (PyVal.dict kvs) "id" = .error (.keyError "id") := by
    simp [pyIndex, h]
  have hps : processSignal a llm sink (PyVal.dict kvs)
      = .aborted (.keyError "id") := by
    unfold processSignal
    rcases ha : analyze_signal a llm (PyVal.dict kvs) with e | an
    · simp [ha, exBind_error, hidx]
    · exfalso
      unfold analyze_signal at ha
      rcases hp : create_signal_prompt (PyVal.dict kvs) with e | p
      · rw [hp] at ha
        simp [exBind_error] at ha
      · rw [hp] at ha
        simp only [exBind_ok] at ha
        rcases hl : llm (analysisRequest a p) with e | content
        · rw [hl] at ha
          simp [exBind_error] at ha
        · rw [hl] at ha
          simp only [exBind_ok] at ha
          rw [hidx] at ha
          simp [exBind_error] at ha
  simp [runLoop, hps]

/-- Witness for c10_missing_id_aborts_run: a two-record sequence whose first
record lacks the key id; the run aborts with KeyError and the second record
is never processed. -/
theorem c10_missing_id_aborts_run_witness :
    ([] : List (String × PyVal)).lookup "id" = Option.none
  ∧ runLoop a0 llm0 sink0 (PyVal.dict [] :: [hitToSignal h1demo])
      ⟨[], [], Option.none⟩
      = ⟨[], [], Option.some (PyErr.keyError "id")⟩ :=
  ⟨rfl, c10_missing_id_aborts_run a0 llm0 sink0 [] rfl [hitToSignal h1demo]
    ⟨[], [], Option.none⟩⟩

/-- Hit used by the C9 counterexample run: id a, empty source. -/
def hAdemo : Hit := ⟨"a", .dict []⟩

/-- Hit used by the C9 counterexample run: id b, empty source. -/
def hBdemo : Hit := ⟨"b", .dict []⟩

/-- Hit used by the C9 counterexample run: id c, empty source. -/
def hCdemo : Hit := ⟨"c", .dict []⟩

/-- An annotation sink that fails on the alert with id c and succeeds on the
others. -/
def sink9 : PyVal → String → Except PyErr PyVal := fun idv _ =>
  match idv with
  | .str "c" => .error (.external "annotation endpoint returned 500")
  | _ => .ok PyVal.none

/-- Evaluation of get_signals over the three-hit store of the C9
counterexample run. -/
lemma get_signals_three_demo :
    get_signals ⟨[hAdemo, hBdemo, hCdemo], 10, Option.none⟩
      = ⟨[3, 0], 1, 1,
         .ok [hitToSignal hAdemo, hitToSignal hBdemo, hitToSignal hCdemo]⟩ := by
  have hs : scrollWhile 10 Option.none [hAdemo, hBdemo, hCdemo] [] 0
      [hitToSignal hAdemo, hitToSignal hBdemo, hitToSignal hCdemo]
      = ([0], 1, .ok [hitToSignal hAdemo, hitToSignal hBdemo, hitToSignal hCdemo]) :=
    scrollWhile_last 10 [hAdemo, hBdemo, hCdemo] (by rfl) 0 _
  simp [get_signals, hs]

/-- C9 counterexample. A run over three discovered alerts of which two are
annotated successfully prints exactly: the rules count (0), the discovered
count (3), two per-alert success markers and one failure line. The number of
successfully annotated alerts is 2, yet no printed line carries the numeral
2 — the only lines carrying a count are the rules line and the discovered
line — refuting the part of the claim that says the program reports the
count of alerts successfully annotated. -/
theorem c9_no_annotated_count_counterexample :
    (mainRun [] ⟨[hAdemo, hBdemo, hCdemo], 10, Option.none⟩ a0 llm0 sink9).output
      = [OutEvent.foundRules 0, OutEvent.foundSignals 3, OutEvent.okSig "a",
         OutEvent.okSig "b",
         OutEvent.errSig "c" "annotation endpoint returned 500"]
  ∧ annotatedOkCount
      [OutEvent.foundRules 0, OutEvent.foundSignals 3, OutEvent.okSig "a",
       OutEvent.okSig "b",
       OutEvent.errSig "c" "annotation endpoint returned 500"] = 2
  ∧ (∀ e ∈ [OutEvent.foundRules 0, OutEvent.foundSignals 3, OutEvent.okSig "a",
       OutEvent.okSig "b",
       OutEvent.errSig "c" "annotation endpoint returned 500"],
      reportedNat e ≠ Option.some 2) := by
  refine ⟨?_, by decide, by decide⟩
  simp only [mainRun, get_signals_three_demo]
  rfl
